import Mathlib

/-!
Verification of the escalator process-lifecycle core, a shallow embedding
of `cmd/main.go`: startup flag checking, credential-mode selection,
node-group config loading, per-group validation with fatal abort, and the
one-shot stop-channel shutdown machinery.
-/

/-- One node-group configuration unit as decoded from the config file
(`controller.NodeGroupOptions`).  Fields follow the data model: a `name`,
a per-group `dryMode` flag, and the scaling bounds (min/max size) that the
validation rules inspect. -/
structure NodeGroupOptions where
  name : String
  minSize : Int
  maxSize : Int
  dryMode : Bool
deriving DecidableEq, Repr

/-- A structured record of one validation-rule violation for one
node-group spec. -/
inductive ValidationError where
  | missingName
  | maxLessThanMin
deriving DecidableEq, Repr

/-- Modelled from the spec: `controller.ValidateNodeGroup` lives in
pkg/controller, which is not under src/ (only its caller in `cmd/main.go`
is).  Per the spec, given one NodeGroupSpec it returns every rule
violation found, not just the first; the rules the spec names are
"missing name" and "max size < min size", checked independently of each
other. -/
def ValidateNodeGroup (ng : NodeGroupOptions) : List ValidationError :=
  (if ng.name = "" then [ValidationError.missingName] else []) ++
  (if ng.maxSize < ng.minSize then [ValidationError.maxLessThanMin] else [])

/-- One line of operator-visible log output emitted by the validation loop
of `cmd/main.go` (lines 58-69). -/
inductive LogEntry where
  | validateFail (nodegroup : String)
  | failedCheck (err : ValidationError)
  | fatalValidation (nodegroup : String) (count : Nat)
  | validatePass (nodegroup : String)
  | registered (nodegroup : String) (drymode : Bool)
deriving DecidableEq, Repr

/-- The validation loop of `cmd/main.go` (lines 58-69): each nodegroup is
validated in order; on the first group whose error list is nonempty the
loop logs the FAIL header, one "failed check" line per error, and the
fatal line, and the process terminates there (log.Fatalf).  Otherwise it
logs PASS and the registered drymode (the disjunction at line 68) and
continues.  Returns the emitted log and, when some group failed, the name
and error count reported by the Fatalf call.  The per-spec validator is a
parameter because `controller.ValidateNodeGroup` itself is outside src/. -/
def validateLoop (validate : NodeGroupOptions → List ValidationError)
    (drymode : Bool) : List NodeGroupOptions → List LogEntry × Option (String × Nat)
  | [] => ([], none)
  | ng :: rest =>
    let errs := validate ng
    if errs.length > 0 then
      (LogEntry.validateFail ng.name :: errs.map LogEntry.failedCheck ++
        [LogEntry.fatalValidation ng.name errs.length], some (ng.name, errs.length))
    else
      let r := validateLoop validate drymode rest
      (LogEntry.validatePass ng.name ::
        LogEntry.registered ng.name (ng.dryMode || drymode) :: r.1, r.2)

/-- The resolved cluster API client handle.  The constructors
`k8s.NewOutOfClusterClient` / `k8s.NewInClusterClient` are outside src/;
only their selection at `cmd/main.go` lines 38-45 is in scope, so the
handle records which mode was chosen and with what path. -/
inductive K8sClient where
  | outOfCluster (kubeconfig : String)
  | inCluster
deriving DecidableEq, Repr

/-- The `controller.Opts` bundle constructed at `cmd/main.go` lines 71-76
and passed to `controller.NewController`. -/
structure Opts where
  scanInterval : Nat
  k8sClient : K8sClient
  nodeGroups : List NodeGroupOptions
  dryMode : Bool
deriving DecidableEq, Repr

/-- The parsed CLI flags (the kingpin flag block at the top of
`cmd/main.go`).  kingpin's String() always yields a non-nil pointer whose
default is the empty string, so the source guard
`kubeConfigFile != nil && len(*kubeConfigFile) > 0` reduces to a length
test on a plain string; an absent flag is the empty string. -/
structure Args where
  loglevel : Int
  address : String
  scanInterval : Nat
  kubeconfig : String
  nodegroups : String
  drymode : Bool
deriving DecidableEq, Repr

/-- Failure of config acquisition in `cmd/main.go` lines 48-55: either
`os.Open` fails, or `controller.UnmarshalNodeGroupOptions` (outside src/)
fails to decode the stream.  Decoding is all-or-nothing per the spec:
either the whole sequence is produced or an error is. -/
inductive ConfigError where
  | openError
  | decodeError
deriving DecidableEq, Repr

/-- Externally visible startup effects of `main`, recorded in program
order: client construction, opening the config file, starting the metrics
endpoint. -/
inductive Effect where
  | newOutOfClusterClient (kubeconfig : String)
  | newInClusterClient
  | openConfigFile (path : String)
  | metricsStart (address : String)
deriving DecidableEq, Repr

/-- How one run of `main` ends: one of the `log.Fatalf` terminations, or
the blocking call `controller.NewController(opts, stopChan)` followed by
`c.RunForever(true)` with the options and the forever flag it was given. -/
inductive Outcome where
  | fatalLogLevel
  | fatalOpenConfig
  | fatalDecodeConfig
  | fatalValidation (nodegroup : String) (count : Nat)
  | runForever (opts : Opts) (foreverUntilStop : Bool)
deriving DecidableEq, Repr

/-- Every outcome other than reaching RunForever is a log.Fatalf
termination with a nonzero exit status. -/
def Outcome.isFatal : Outcome → Bool
  | Outcome.runForever _ _ => false
  | _ => true

/-- Shallow embedding of `func main()` in `cmd/main.go`.  The parts of the
repository outside src/ enter as parameters: `cfg` is the combined result
of `os.Open` plus `controller.UnmarshalNodeGroupOptions` on the nodegroups
file, and `validate` is `controller.ValidateNodeGroup`.  Returns the
effects performed, the validation log emitted, and the outcome.  The
signal/stop channel setup is modelled separately by `StopSys`. -/
def mainRun (a : Args) (cfg : Except ConfigError (List NodeGroupOptions))
    (validate : NodeGroupOptions → List ValidationError) :
    List Effect × List LogEntry × Outcome :=
  if a.loglevel < 0 ∨ a.loglevel > 5 then ([], [], Outcome.fatalLogLevel)
  else
    let clientEff := if a.kubeconfig.length > 0 then
        Effect.newOutOfClusterClient a.kubeconfig else Effect.newInClusterClient
    let k8sClient := if a.kubeconfig.length > 0 then
        K8sClient.outOfCluster a.kubeconfig else K8sClient.inCluster
    match cfg with
    | Except.error ConfigError.openError =>
      ([clientEff, Effect.openConfigFile a.nodegroups], [], Outcome.fatalOpenConfig)
    | Except.error ConfigError.decodeError =>
      ([clientEff, Effect.openConfigFile a.nodegroups], [], Outcome.fatalDecodeConfig)
    | Except.ok nodegroups =>
      let v := validateLoop validate a.drymode nodegroups
      match v.2 with
      | some fc =>
        ([clientEff, Effect.openConfigFile a.nodegroups], v.1,
          Outcome.fatalValidation fc.1 fc.2)
      | none =>
        ([clientEff, Effect.openConfigFile a.nodegroups,
            Effect.metricsStart a.address], v.1,
          Outcome.runForever ⟨a.scanInterval, k8sClient, nodegroups, a.drymode⟩ true)

/-- Program counter of the signal-watcher goroutine started at
`cmd/main.go` lines 85-90: it blocks on one receive from signalChan, logs,
closes stopChan and returns. -/
inductive WatcherState where
  | waiting
  | done
deriving DecidableEq, Repr

/-- State of the shutdown machinery: the watcher goroutine together with
the stopChan broadcast channel.  closeCount counts executed close calls on
stopChan; a second close of a Go channel would panic, so the invariant of
interest is closeCount ≤ 1. -/
structure StopSys where
  watcher : WatcherState
  stopClosed : Bool
  closeCount : Nat
deriving DecidableEq, Repr

/-- Initial state: stopChan open, watcher blocked on its receive. -/
def StopSys.init : StopSys := ⟨WatcherState.waiting, false, 0⟩

/-- Delivery of one SIGINT or SIGTERM.  If the watcher is still waiting it
receives the signal, closes stopChan exactly once and returns; once it has
returned, nobody receives from signalChan any more (signal.Notify drops
signals no reader takes), so nothing changes. -/
def StopSys.deliver (s : StopSys) : StopSys :=
  match s.watcher with
  | WatcherState.waiting => ⟨WatcherState.done, true, s.closeCount + 1⟩
  | WatcherState.done => s

/-- State of the shutdown machinery after n OS termination signals have
been delivered. -/
def StopSys.afterSignals : Nat → StopSys
  | 0 => StopSys.init
  | n + 1 => (StopSys.afterSignals n).deliver

/-- The fatal result of the validation loop is determined by the first
spec in document order whose validator output is nonempty. -/
theorem validateLoop_snd (v : NodeGroupOptions → List ValidationError) (dm : Bool) :
    ∀ ngs : List NodeGroupOptions,
      (validateLoop v dm ngs).2 =
        (ngs.find? (fun g => !(v g).isEmpty)).map (fun f => (f.name, (v f).length))
  | [] => rfl
  | ng :: rest => by
    cases hv : v ng with
    | nil => simp [validateLoop, List.find?, hv, validateLoop_snd v dm rest]
    | cons e es => simp [validateLoop, List.find?, hv]

/-- When some spec fails validation, the loop logs the FAIL header of the
first failing spec, every one of its failed checks, and no FAIL header of
any other name. -/
theorem validateLoop_log_of_fail (v : NodeGroupOptions → List ValidationError)
    (dm : Bool) :
    ∀ (ngs : List NodeGroupOptions) (f : NodeGroupOptions),
      ngs.find? (fun g => !(v g).isEmpty) = some f →
      LogEntry.validateFail f.name ∈ (validateLoop v dm ngs).1 ∧
      (∀ e ∈ v f, LogEntry.failedCheck e ∈ (validateLoop v dm ngs).1) ∧
      (∀ n, LogEntry.validateFail n ∈ (validateLoop v dm ngs).1 → n = f.name)
  | [], f, h => by simp [List.find?] at h
  | ng :: rest, f, h => by
    cases hv : v ng with
    | nil =>
      have hfind : rest.find? (fun g => !(v g).isEmpty) = some f := by
        simpa [List.find?, hv] using h
      obtain ⟨h1, h2, h3⟩ := validateLoop_log_of_fail v dm rest f hfind
      refine ⟨?_, ?_, ?_⟩
      · simp [validateLoop, hv, h1]
      · intro e he
        simp [validateLoop, hv, h2 e he]
      · intro n hn
        simp [validateLoop, hv] at hn
        exact h3 n hn
    | cons e es =>
      have hf : f = ng := by
        simp [List.find?, hv] at h
        exact h.symm
      subst hf
      refine ⟨?_, ?_, ?_⟩
      · simp [validateLoop, hv]
      · intro x hx
        simp [validateLoop, hv]
        simpa [hv] using hx
      · intro n hn
        simp [validateLoop, hv] at hn
        exact hn

/-- When every spec passes validation, every spec gets its "Registered
with drymode" log line, carrying the disjunction of its own dryMode and
the global flag. -/
theorem validateLoop_log_of_pass (v : NodeGroupOptions → List ValidationError)
    (dm : Bool) :
    ∀ (ngs : List NodeGroupOptions) (g : NodeGroupOptions),
      (∀ ng ∈ ngs, v ng = []) → g ∈ ngs →
      LogEntry.registered g.name (g.dryMode || dm) ∈ (validateLoop v dm ngs).1
  | [], g, _, hg => by cases hg
  | ng :: rest, g, hall, hg => by
    have hv : v ng = [] := hall ng (List.mem_cons_self ng rest)
    rcases List.mem_cons.mp hg with hgeq | hgrest
    · subst hgeq
      simp [validateLoop, hv]
    · have ih := validateLoop_log_of_pass v dm rest g
        (fun x hx => hall x (List.mem_cons_of_mem ng hx)) hgrest
      simp [validateLoop, hv, ih]

/-- Every "Registered with drymode" log line originates from some spec in
the sequence and carries the disjunction of that spec's dryMode and the
global flag. -/
theorem validateLoop_registered_mem (v : NodeGroupOptions → List ValidationError)
    (dm : Bool) :
    ∀ (ngs : List NodeGroupOptions) (n : String) (d : Bool),
      LogEntry.registered n d ∈ (validateLoop v dm ngs).1 →
      ∃ g ∈ ngs, n = g.name ∧ d = (g.dryMode || dm)
  | [], n, d, h => by simp [validateLoop] at h
  | ng :: rest, n, d, h => by
    cases hv : v ng with
    | nil =>
      simp [validateLoop, hv] at h
      rcases h with ⟨hn, hd⟩ | h
      · exact ⟨ng, List.mem_cons_self ng rest, hn, hd⟩
      · obtain ⟨g, hg, hn, hd⟩ := validateLoop_registered_mem v dm rest n d h
        exact ⟨g, List.mem_cons_of_mem ng hg, hn, hd⟩
    | cons e es =>
      simp [validateLoop, hv] at h

/-- A nonempty string has positive length. -/
theorem string_length_pos_of_ne_empty {s : String} (h : s ≠ "") : s.length > 0 := by
  cases s with
  | mk data =>
    cases data with
    | nil => simp at h
    | cons c cs => simp [String.length]

/-- An outcome marked fatal is not a RunForever invocation. -/
theorem Outcome.isFatal_ne_runForever (o : Outcome) (h : o.isFatal = true) :
    ∀ (opts : Opts) (b : Bool), o ≠ Outcome.runForever opts b := by
  cases o <;> simp [Outcome.isFatal] at *

/-- The validation loop reports no failure exactly when every spec
validates with an empty error list. -/
theorem validateLoop_none_iff (v : NodeGroupOptions → List ValidationError)
    (dm : Bool) (ngs : List NodeGroupOptions) :
    (validateLoop v dm ngs).2 = none ↔ ∀ ng ∈ ngs, v ng = [] := by
  rw [validateLoop_snd]
  simp [List.find?_eq_none]

/-- After the first delivered signal the watcher is finished, stopChan is
closed, and exactly one close has been executed; this state is absorbing. -/
theorem afterSignals_succ : ∀ n : Nat,
    StopSys.afterSignals (n + 1) = ⟨WatcherState.done, true, 1⟩
  | 0 => rfl
  | n + 1 => by
    show (StopSys.afterSignals (n + 1)).deliver = _
    rw [afterSignals_succ n]
    rfl

/-- When the log level is in range and every spec validates cleanly, main
runs to the RunForever call with the decoded specs verbatim. -/
theorem mainRun_runForever_of_pass (a : Args)
    (validate : NodeGroupOptions → List ValidationError)
    (ngs : List NodeGroupOptions)
    (hl : ¬(a.loglevel < 0 ∨ a.loglevel > 5))
    (h : ∀ ng ∈ ngs, validate ng = []) :
    mainRun a (Except.ok ngs) validate =
      ([if a.kubeconfig.length > 0 then Effect.newOutOfClusterClient a.kubeconfig
          else Effect.newInClusterClient,
        Effect.openConfigFile a.nodegroups, Effect.metricsStart a.address],
       (validateLoop validate a.drymode ngs).1,
       Outcome.runForever
         ⟨a.scanInterval,
          if a.kubeconfig.length > 0 then K8sClient.outOfCluster a.kubeconfig
            else K8sClient.inCluster,
          ngs, a.drymode⟩ true) := by
  have hsnd : (validateLoop validate a.drymode ngs).2 = none :=
    (validateLoop_none_iff validate a.drymode ngs).mpr h
  simp [mainRun, hl, hsnd]

/-- Anatomy of a run that reaches RunForever: the forever flag is true,
the config decoded to exactly the node groups in the options, and the
options carry the flag values verbatim. -/
theorem mainRun_runForever_inv (a : Args)
    (cfg : Except ConfigError (List NodeGroupOptions))
    (validate : NodeGroupOptions → List ValidationError)
    (opts : Opts) (b : Bool)
    (h : (mainRun a cfg validate).2.2 = Outcome.runForever opts b) :
    b = true ∧ cfg = Except.ok opts.nodeGroups ∧
    opts.scanInterval = a.scanInterval ∧ opts.dryMode = a.drymode ∧
    opts.k8sClient =
      (if a.kubeconfig.length > 0 then K8sClient.outOfCluster a.kubeconfig
        else K8sClient.inCluster) := by
  by_cases hl : a.loglevel < 0 ∨ a.loglevel > 5
  · simp [mainRun, hl] at h
  · cases cfg with
    | error e => cases e <;> simp [mainRun, hl] at h
    | ok ngs =>
      rcases hsnd : (validateLoop validate a.drymode ngs).2 with _ | fc
      · simp [mainRun, hl, hsnd] at h
        obtain ⟨hopts, hb⟩ := h
        subst hb
        rw [← hopts]
        simp
      · simp [mainRun, hl, hsnd] at h

/-- C1 (counterexample): with two node groups that both fail validation
(max size 0 below min size 1), the loop terminates fatally at the first
group "pool-a"; the second offending group "pool-b" fails validation too,
yet no FAIL log line for it is ever emitted — the claim that every
offending group is logged is false. -/
theorem C1_counterexample :
    ValidateNodeGroup ⟨"pool-b", 1, 0, false⟩ ≠ [] ∧
    (validateLoop ValidateNodeGroup false
        [⟨"pool-a", 1, 0, false⟩, ⟨"pool-b", 1, 0, false⟩]).2 = some ("pool-a", 1) ∧
    LogEntry.validateFail "pool-b" ∉
      (validateLoop ValidateNodeGroup false
        [⟨"pool-a", 1, 0, false⟩, ⟨"pool-b", 1, 0, false⟩]).1 ∧
    LogEntry.fatalValidation "pool-b" 1 ∉
      (validateLoop ValidateNodeGroup false
        [⟨"pool-a", 1, 0, false⟩, ⟨"pool-b", 1, 0, false⟩]).1 := by
  decide

/-- C1 (amended): when at least one node group fails validation, the
process logs the FAIL header and every failed check of the FIRST failing
group in document order, then terminates fatally reporting that group's
name and error count; no FAIL header for any other group is logged. -/
theorem C1_amended (validate : NodeGroupOptions → List ValidationError)
    (dm : Bool) (ngs : List NodeGroupOptions)
    (h : ∃ ng ∈ ngs, validate ng ≠ []) :
    ∃ f, ngs.find? (fun g => !(validate g).isEmpty) = some f ∧
      (validateLoop validate dm ngs).2 = some (f.name, (validate f).length) ∧
      LogEntry.validateFail f.name ∈ (validateLoop validate dm ngs).1 ∧
      (∀ e ∈ validate f, LogEntry.failedCheck e ∈ (validateLoop validate dm ngs).1) ∧
      (∀ n, LogEntry.validateFail n ∈ (validateLoop validate dm ngs).1 →
        n = f.name) := by
  obtain ⟨ng, hng, hne⟩ := h
  have hsome : (ngs.find? (fun g => !(validate g).isEmpty)).isSome := by
    rw [List.find?_isSome]
    exact ⟨ng, hng, by simpa using hne⟩
  obtain ⟨f, hf⟩ := Option.isSome_iff_exists.mp hsome
  obtain ⟨h1, h2, h3⟩ := validateLoop_log_of_fail validate dm ngs f hf
  refine ⟨f, hf, ?_, h1, h2, h3⟩
  rw [validateLoop_snd, hf]
  rfl

/-- C1 (witness): the amended theorem applied to the two-failing-group
input: the first failing group is "pool-a" with one error. -/
theorem C1_witness :
    ∃ f, (([⟨"pool-a", 1, 0, false⟩, ⟨"pool-b", 1, 0, false⟩] :
        List NodeGroupOptions).find? (fun g => !(ValidateNodeGroup g).isEmpty)) =
          some f ∧
      (validateLoop ValidateNodeGroup false
        [⟨"pool-a", 1, 0, false⟩, ⟨"pool-b", 1, 0, false⟩]).2 =
          some (f.name, (ValidateNodeGroup f).length) ∧
      LogEntry.validateFail f.name ∈ (validateLoop ValidateNodeGroup false
        [⟨"pool-a", 1, 0, false⟩, ⟨"pool-b", 1, 0, false⟩]).1 ∧
      (∀ e ∈ ValidateNodeGroup f, LogEntry.failedCheck e ∈
        (validateLoop ValidateNodeGroup false
          [⟨"pool-a", 1, 0, false⟩, ⟨"pool-b", 1, 0, false⟩]).1) ∧
      (∀ n, LogEntry.validateFail n ∈ (validateLoop ValidateNodeGroup false
          [⟨"pool-a", 1, 0, false⟩, ⟨"pool-b", 1, 0, false⟩]).1 → n = f.name) :=
  C1_amended ValidateNodeGroup false
    [⟨"pool-a", 1, 0, false⟩, ⟨"pool-b", 1, 0, false⟩]
    ⟨⟨"pool-b", 1, 0, false⟩, by decide, by decide⟩

/-- C2: if any decoded spec has a nonzero validation error count, main
ends in a log.Fatalf termination and RunForever is never reached — no
subset of the groups is ever activated. -/
theorem C2_validation_aborts (a : Args)
    (validate : NodeGroupOptions → List ValidationError)
    (ngs : List NodeGroupOptions) (h : ∃ ng ∈ ngs, validate ng ≠ []) :
    ((mainRun a (Except.ok ngs) validate).2.2).isFatal = true ∧
    ∀ (opts : Opts) (b : Bool),
      (mainRun a (Except.ok ngs) validate).2.2 ≠ Outcome.runForever opts b := by
  have hfatal : ((mainRun a (Except.ok ngs) validate).2.2).isFatal = true := by
    obtain ⟨ng, hng, hne⟩ := h
    have hsome : (ngs.find? (fun g => !(validate g).isEmpty)).isSome := by
      rw [List.find?_isSome]
      exact ⟨ng, hng, by simpa using hne⟩
    obtain ⟨f, hf⟩ := Option.isSome_iff_exists.mp hsome
    have hsnd : (validateLoop validate a.drymode ngs).2 =
        some (f.name, (validate f).length) := by
      rw [validateLoop_snd, hf]
      rfl
    by_cases hl : a.loglevel < 0 ∨ a.loglevel > 5
    · simp [mainRun, hl, Outcome.isFatal]
    · simp [mainRun, hl, hsnd, Outcome.isFatal]
  exact ⟨hfatal, Outcome.isFatal_ne_runForever _ hfatal⟩

/-- C2 (witness): a single group with max size below min size makes main
end fatally without reaching RunForever. -/
theorem C2_witness :
    ((mainRun ⟨4, ":8080", 60, "", "groups.yaml", false⟩
        (Except.ok [⟨"pool-b", 1, 0, false⟩]) ValidateNodeGroup).2.2).isFatal =
      true ∧
    ∀ (opts : Opts) (b : Bool),
      (mainRun ⟨4, ":8080", 60, "", "groups.yaml", false⟩
        (Except.ok [⟨"pool-b", 1, 0, false⟩]) ValidateNodeGroup).2.2 ≠
        Outcome.runForever opts b :=
  C2_validation_aborts ⟨4, ":8080", 60, "", "groups.yaml", false⟩
    ValidateNodeGroup [⟨"pool-b", 1, 0, false⟩]
    ⟨⟨"pool-b", 1, 0, false⟩, by decide, by decide⟩

/-- C3: when the total validation error count over the decoded sequence
is zero (and the log level passed its gate), RunForever is invoked with
options whose NodeGroups field is the decoded sequence verbatim, in
order, with no substitution — scan interval, client and the global
drymode flag likewise taken directly from the inputs. -/
theorem C3_verbatim_nodegroups (a : Args)
    (validate : NodeGroupOptions → List ValidationError)
    (ngs : List NodeGroupOptions)
    (hl : 0 ≤ a.loglevel ∧ a.loglevel ≤ 5)
    (h : (ngs.map (fun g => (validate g).length)).sum = 0) :
    (mainRun a (Except.ok ngs) validate).2.2 =
      Outcome.runForever
        ⟨a.scanInterval,
         if a.kubeconfig.length > 0 then K8sClient.outOfCluster a.kubeconfig
           else K8sClient.inCluster,
         ngs, a.drymode⟩ true := by
  have hl' : ¬(a.loglevel < 0 ∨ a.loglevel > 5) := by omega
  have hall : ∀ ng ∈ ngs, validate ng = [] := by
    intro ng hng
    have := List.sum_eq_zero_iff.mp h ((validate ng).length)
      (List.mem_map_of_mem _ hng)
    exact List.length_eq_zero.mp this
  rw [mainRun_runForever_of_pass a validate ngs hl' hall]

/-- C3 (witness): one valid group "pool-a"; RunForever receives exactly
that singleton sequence. -/
theorem C3_witness :
    (mainRun ⟨4, ":8080", 60, "", "groups.yaml", false⟩
        (Except.ok [⟨"pool-a", 1, 3, false⟩]) ValidateNodeGroup).2.2 =
      Outcome.runForever
        ⟨60,
         if ("" : String).length > 0 then K8sClient.outOfCluster ""
           else K8sClient.inCluster,
         [⟨"pool-a", 1, 3, false⟩], false⟩ true :=
  C3_verbatim_nodegroups ⟨4, ":8080", 60, "", "groups.yaml", false⟩
    ValidateNodeGroup [⟨"pool-a", 1, 3, false⟩] (by decide) (by decide)

/-- C4: the stop channel transitions from open to closed exactly once: it
is open with zero close calls before the first SIGINT/SIGTERM, and after
any positive number of delivered signals it is closed with exactly one
executed close — further signals change nothing, so no double-close panic
is possible. -/
theorem C4_stop_channel_once (n : Nat) :
    (StopSys.afterSignals n).closeCount = (if n = 0 then 0 else 1) ∧
    (StopSys.afterSignals n).stopClosed = decide (n ≠ 0) ∧
    (StopSys.afterSignals n).closeCount ≤ 1 := by
  cases n with
  | zero => simp [StopSys.afterSignals, StopSys.init]
  | succ m => simp [afterSignals_succ m]

/-- C5: an out-of-range log level makes main terminate with the bad-log-
level Fatalf before performing any effect: no client constructor runs and
the config file is never opened. -/
theorem C5_loglevel_gate (a : Args)
    (cfg : Except ConfigError (List NodeGroupOptions))
    (validate : NodeGroupOptions → List ValidationError)
    (h : a.loglevel < 0 ∨ a.loglevel > 5) :
    (mainRun a cfg validate).1 = [] ∧
    (mainRun a cfg validate).2.2 = Outcome.fatalLogLevel := by
  simp [mainRun, h]

/-- C5 (witness): log level 6 aborts with no effects performed. -/
theorem C5_witness :
    (mainRun ⟨6, ":8080", 60, "", "groups.yaml", false⟩
        (Except.ok []) ValidateNodeGroup).1 = [] ∧
    (mainRun ⟨6, ":8080", 60, "", "groups.yaml", false⟩
        (Except.ok []) ValidateNodeGroup).2.2 = Outcome.fatalLogLevel :=
  C5_loglevel_gate ⟨6, ":8080", 60, "", "groups.yaml", false⟩
    (Except.ok []) ValidateNodeGroup (by decide)

/-- C6: once past the log-level gate, credential resolution picks exactly
one of the two modes, decided solely by the kubeconfig path: a non-empty
path performs out-of-cluster construction with that path and never the
in-cluster one; an empty (absent) path performs in-cluster construction
and never any out-of-cluster one. -/
theorem C6_credential_mode (a : Args)
    (cfg : Except ConfigError (List NodeGroupOptions))
    (validate : NodeGroupOptions → List ValidationError)
    (hl : ¬(a.loglevel < 0 ∨ a.loglevel > 5)) :
    (a.kubeconfig ≠ "" →
      Effect.newOutOfClusterClient a.kubeconfig ∈ (mainRun a cfg validate).1 ∧
      Effect.newInClusterClient ∉ (mainRun a cfg validate).1) ∧
    (a.kubeconfig = "" →
      Effect.newInClusterClient ∈ (mainRun a cfg validate).1 ∧
      ∀ p, Effect.newOutOfClusterClient p ∉ (mainRun a cfg validate).1) := by
  constructor
  · intro hne
    have hk : a.kubeconfig.length > 0 := string_length_pos_of_ne_empty hne
    cases cfg with
    | error e =>
      cases e <;> simp [mainRun, hl, hk]
    | ok ngs =>
      rcases hsnd : (validateLoop validate a.drymode ngs).2 with _ | fc <;>
        simp [mainRun, hl, hk, hsnd]
  · intro heq
    have hk : ¬ a.kubeconfig.length > 0 := by
      rw [heq]
      decide
    cases cfg with
    | error e =>
      cases e <;> simp [mainRun, hl, hk]
    | ok ngs =>
      rcases hsnd : (validateLoop validate a.drymode ngs).2 with _ | fc <;>
        simp [mainRun, hl, hk, hsnd]

/-- C6 (witness): with kubeconfig path "/home/user/kubeconfig" the
out-of-cluster constructor runs and the in-cluster one does not; the
other conjunct holds vacuously at this input. -/
theorem C6_witness :
    ("/home/user/kubeconfig" ≠ "" →
      Effect.newOutOfClusterClient "/home/user/kubeconfig" ∈
        (mainRun ⟨4, ":8080", 60, "/home/user/kubeconfig", "groups.yaml", false⟩
          (Except.ok []) ValidateNodeGroup).1 ∧
      Effect.newInClusterClient ∉
        (mainRun ⟨4, ":8080", 60, "/home/user/kubeconfig", "groups.yaml", false⟩
          (Except.ok []) ValidateNodeGroup).1) ∧
    ("/home/user/kubeconfig" = "" →
      Effect.newInClusterClient ∈
        (mainRun ⟨4, ":8080", 60, "/home/user/kubeconfig", "groups.yaml", false⟩
          (Except.ok []) ValidateNodeGroup).1 ∧
      ∀ p, Effect.newOutOfClusterClient p ∉
        (mainRun ⟨4, ":8080", 60, "/home/user/kubeconfig", "groups.yaml", false⟩
          (Except.ok []) ValidateNodeGroup).1) :=
  C6_credential_mode ⟨4, ":8080", 60, "/home/user/kubeconfig", "groups.yaml", false⟩
    (Except.ok []) ValidateNodeGroup (by decide)

/-- C7 (counterexample): two specs with the identical name "pool-a", each
individually valid, pass validation with zero errors and RunForever is
invoked with the duplicate-bearing sequence — duplicate names are NOT
rejected as a validation failure. -/
theorem C7_counterexample :
    ¬ (([⟨"pool-a", 1, 3, false⟩, ⟨"pool-a", 1, 3, false⟩] :
        List NodeGroupOptions).map (fun g => g.name)).Nodup ∧
    ValidateNodeGroup ⟨"pool-a", 1, 3, false⟩ = [] ∧
    (mainRun ⟨4, ":8080", 60, "", "groups.yaml", false⟩
        (Except.ok [⟨"pool-a", 1, 3, false⟩, ⟨"pool-a", 1, 3, false⟩])
        ValidateNodeGroup).2.2 =
      Outcome.runForever ⟨60, K8sClient.inCluster,
        [⟨"pool-a", 1, 3, false⟩, ⟨"pool-a", 1, 3, false⟩], false⟩ true := by
  decide

/-- C7 (amended): validation is invoked once per spec and inspects no
cross-spec state, so a sequence whose names are NOT pairwise distinct, in
which every spec individually validates cleanly, passes validation and is
handed to RunForever verbatim, duplicates included. -/
theorem C7_amended (a : Args) (ngs : List NodeGroupOptions)
    (hl : 0 ≤ a.loglevel ∧ a.loglevel ≤ 5)
    (hdup : ¬ (ngs.map (fun g => g.name)).Nodup)
    (hval : ∀ ng ∈ ngs, ValidateNodeGroup ng = []) :
    (mainRun a (Except.ok ngs) ValidateNodeGroup).2.2 =
      Outcome.runForever
        ⟨a.scanInterval,
         if a.kubeconfig.length > 0 then K8sClient.outOfCluster a.kubeconfig
           else K8sClient.inCluster,
         ngs, a.drymode⟩ true := by
  have hl' : ¬(a.loglevel < 0 ∨ a.loglevel > 5) := by omega
  rw [mainRun_runForever_of_pass a ValidateNodeGroup ngs hl' hval]

/-- C7 (witness): the amended theorem applied to the duplicate "pool-a"
pair. -/
theorem C7_witness :
    (mainRun ⟨4, ":8080", 60, "", "groups.yaml", false⟩
        (Except.ok [⟨"pool-a", 1, 3, false⟩, ⟨"pool-a", 1, 3, false⟩])
        ValidateNodeGroup).2.2 =
      Outcome.runForever
        ⟨60,
         if ("" : String).length > 0 then K8sClient.outOfCluster ""
           else K8sClient.inCluster,
         [⟨"pool-a", 1, 3, false⟩, ⟨"pool-a", 1, 3, false⟩], false⟩ true :=
  C7_amended ⟨4, ":8080", 60, "", "groups.yaml", false⟩
    [⟨"pool-a", 1, 3, false⟩, ⟨"pool-a", 1, 3, false⟩]
    (by decide) (by decide) (by decide)

/-- C8: whether the config file fails to open or its contents fail to
decode, main ends in a log.Fatalf termination and RunForever is never
reached; the all-or-nothing decode result means no partial sequence is
ever accepted. -/
theorem C8_config_failure_fatal (a : Args) (e : ConfigError)
    (validate : NodeGroupOptions → List ValidationError) :
    ((mainRun a (Except.error e) validate).2.2).isFatal = true ∧
    ∀ (opts : Opts) (b : Bool),
      (mainRun a (Except.error e) validate).2.2 ≠ Outcome.runForever opts b := by
  have hfatal : ((mainRun a (Except.error e) validate).2.2).isFatal = true := by
    by_cases hl : a.loglevel < 0 ∨ a.loglevel > 5
    · simp [mainRun, hl, Outcome.isFatal]
    · cases e <;> simp [mainRun, hl, Outcome.isFatal]
  exact ⟨hfatal, Outcome.isFatal_ne_runForever _ hfatal⟩

/-- C9: when every spec passes validation, each group is registered with
the disjunction of its own dryMode and the global drymode flag; with the
global flag set, every registered drymode is true regardless of the
group's own value — the override wins. -/
theorem C9_drymode_override (validate : NodeGroupOptions → List ValidationError)
    (dm : Bool) (ngs : List NodeGroupOptions) (g : NodeGroupOptions)
    (hall : ∀ ng ∈ ngs, validate ng = []) (hg : g ∈ ngs) :
    LogEntry.registered g.name (g.dryMode || dm) ∈
      (validateLoop validate dm ngs).1 ∧
    (dm = true → ∀ n d, LogEntry.registered n d ∈
      (validateLoop validate dm ngs).1 → d = true) := by
  refine ⟨validateLoop_log_of_pass validate dm ngs g hall hg, ?_⟩
  intro hdm n d hmem
  obtain ⟨g', _, _, hd⟩ := validateLoop_registered_mem validate dm ngs n d hmem
  subst hdm
  simp [hd]

/-- C9 (witness): one group with its own dryMode false under the global
flag set to true: its registered drymode is false || true. -/
theorem C9_witness :
    LogEntry.registered (NodeGroupOptions.mk "pool-a" 1 3 false).name
        ((NodeGroupOptions.mk "pool-a" 1 3 false).dryMode || true) ∈
      (validateLoop ValidateNodeGroup true [⟨"pool-a", 1, 3, false⟩]).1 ∧
    (true = true → ∀ n d, LogEntry.registered n d ∈
      (validateLoop ValidateNodeGroup true [⟨"pool-a", 1, 3, false⟩]).1 →
      d = true) :=
  C9_drymode_override ValidateNodeGroup true [⟨"pool-a", 1, 3, false⟩]
    ⟨"pool-a", 1, 3, false⟩ (by decide) (by decide)

/-- C10: every execution that reaches the controller invokes RunForever
with the forever flag true — the run-once mode of the Driver contract is
never exercised by this core. -/
theorem C10_forever_flag (a : Args)
    (cfg : Except ConfigError (List NodeGroupOptions))
    (validate : NodeGroupOptions → List ValidationError)
    (opts : Opts) (b : Bool)
    (h : (mainRun a cfg validate).2.2 = Outcome.runForever opts b) : b = true :=
  (mainRun_runForever_inv a cfg validate opts b h).1

/-- C10 (witness): a run that reaches the controller, with the forever
flag observed to be true. -/
theorem C10_witness :
    (mainRun ⟨4, ":8080", 60, "", "groups.yaml", false⟩
        (Except.ok [⟨"pool-a", 1, 3, false⟩]) ValidateNodeGroup).2.2 =
      Outcome.runForever
        ⟨60, K8sClient.inCluster, [⟨"pool-a", 1, 3, false⟩], false⟩ true ∧
    (true = true) :=
  ⟨by decide,
   C10_forever_flag ⟨4, ":8080", 60, "", "groups.yaml", false⟩
     (Except.ok [⟨"pool-a", 1, 3, false⟩]) ValidateNodeGroup
     ⟨60, K8sClient.inCluster, [⟨"pool-a", 1, 3, false⟩], false⟩ true (by decide)⟩
